import Mathlib

/-!
Shallow embedding of the chaos-database-mysql adapter (src/index.js).

The source file holds two near-duplicate copies of the `MySql` class.
The first copy (the current implementation) stores the connection handle
in `this._client` and a boolean flag in `this._connected`; the second,
older copy stores the handle in `this._driver` and derives `connected()`
from it.  Both copies are embedded below where they differ; shared parts
are embedded once.

Conventions of the embedding:
- JavaScript values flowing through default-normalization and type
  conversion are modelled by `JsVal` (null, booleans, strings, numbers);
  strict equality `===` is `JsVal` equality.
- Connection handles are natural numbers; `mysql.createConnection` is
  modelled by drawing the next handle from a `nextHandle` counter on the
  state, and each transport-level connection attempt increments a
  `transportConnects` counter, so "no new transport work" is the
  statement that the counter is unchanged.
- Promise settlement is explicit: a computation returns an outcome
  (resolved value, rejection message, or `unsettled` when the source
  leaves the promise pending forever) together with the updated state.
-/

namespace MySql

/-- JavaScript values relevant to the adapter: null, booleans, strings
and (integer) numbers. -/
inductive JsVal where
  | null : JsVal
  | bool : Bool → JsVal
  | str : String → JsVal
  | num : Int → JsVal
deriving DecidableEq, Repr

/-- Instance state of the adapter (first copy): the cached client handle
`_client`, the `_connected` flag, the `_lastInsertId` slot and the
configured database name.  `nextHandle` models the supply of fresh
transport handles and `transportConnects` counts transport-level
connection attempts. -/
structure DB where
  _client : Option Nat
  _connected : Bool
  _lastInsertId : Option Int
  database : Option String
  nextHandle : Nat
  transportConnects : Nat
deriving DecidableEq, Repr

/-- The constructor: `this._client = config.client`,
`this._connected = false`, and `_lastInsertId` is never initialized
(undefined).  `database` comes from the configuration. -/
def mkMySql (database : Option String) (client : Option Nat) : DB :=
  { _client := client
    _connected := false
    _lastInsertId := none
    database := database
    nextHandle := 0
    transportConnects := 0 }

/-- Outcome of the transport-level connect callback: the environment
decides whether `client.connect` reports an error (with its native
`code` and `stack`) or succeeds. -/
inductive ConnectOutcome where
  | success : ConnectOutcome
  | failure : String → String → ConnectOutcome
deriving DecidableEq, Repr

/-- Settlement of the promise returned by `connect()`. -/
inductive ConnResult where
  | resolved : Nat → ConnResult
  | rejected : String → ConnResult
deriving DecidableEq, Repr

/-- `connect()` of the first copy: return the cached client immediately
when present; reject when no database name is configured; otherwise
create a connection (caching it on the instance before the callback
runs), and in the callback either reject with the composed message or
set `_connected` and resolve the handle.  Note the source assigns
`self._client = client` before `client.connect` runs its callback, so
the handle stays cached even when the connection attempt fails. -/
def connect (env : ConnectOutcome) (s : DB) : ConnResult × DB :=
  match s._client with
  | some h => (ConnResult.resolved h, s)
  | none =>
    match s.database with
    | none => (ConnResult.rejected "Error, no database name has been configured.", s)
    | some _ =>
      let h := s.nextHandle
      let s1 : DB :=
        { s with _client := some h
                 nextHandle := s.nextHandle + 1
                 transportConnects := s.transportConnects + 1 }
      match env with
      | ConnectOutcome.failure code stack =>
          (ConnResult.rejected ("Unable to connect to host , error " ++ code ++ " " ++ stack), s1)
      | ConnectOutcome.success =>
          (ConnResult.resolved h, { s1 with _connected := true })

/-- `connected()` of the first copy: `return this._connected;`. -/
def connected (s : DB) : Bool :=
  s._connected

/-- `connected()` of the second copy: `return !!this._driver;`. -/
def connected2 (s : DB) : Bool :=
  s._client.isSome

/-- `disconnect()`: no-op returning true when no client is cached;
otherwise ends the transport link, clears `_client` and `_connected`,
and returns true.  `_lastInsertId` is untouched. -/
def disconnect (s : DB) : Bool × DB :=
  match s._client with
  | none => (true, s)
  | some _ => (true, { s with _client := none, _connected := false })

/-- `lastInsertId()`: `return this._lastInsertId;`. -/
def lastInsertId (s : DB) : Option Int :=
  s._lastInsertId

/-- A row of a result set: a mapping from column names to values. -/
abbrev Row := List (String × String)

/-- The external cursor capability: `new cursor({ data: data })` wraps
the raw rows. -/
structure Cursor where
  data : List Row
deriving DecidableEq, Repr

/-- Payload carried by a successful transport response: either a result
object whose `insertId` property is defined, or row data (for which
`insertId` is undefined). -/
inductive RespData where
  | withId : Int → RespData
  | rows : List Row → RespData
deriving DecidableEq, Repr

/-- Transport response to `this._client.query(sql, cb)`: the callback
receives either a native error or `data` (possibly absent). -/
inductive QueryResp where
  | error : String → QueryResp
  | success : Option RespData → QueryResp
deriving DecidableEq, Repr

/-- Settlement of the promise returned by `query()`.  `unsettled` marks
the executions in which neither `accept` nor `reject` is ever called,
so the promise stays pending forever. -/
inductive QueryOutcome where
  | resolvedTrue : QueryOutcome
  | resolvedCursor : Cursor → QueryOutcome
  | rejected : String → QueryOutcome
  | unsettled : QueryOutcome
deriving DecidableEq, Repr

/-- `query()` of the first copy.  The body is
`self.connect().then(function() { self._client.query(sql, cb); })` with
no rejection handler on the `.then`: when `connect()` rejects, the
rejection is never forwarded to the outer promise, which therefore
never settles.  When the connection resolves, the statement callback
rejects with the native error unmodified, or classifies `data`:
an `insertId`-carrying result records it and resolves `true`; row data
resolves a cursor wrapping it; absent data resolves `true`. -/
def query (env : ConnectOutcome) (resp : QueryResp) (s : DB) : QueryOutcome × DB :=
  match connect env s with
  | (ConnResult.resolved _, s1) =>
    match resp with
    | QueryResp.error e => (QueryOutcome.rejected e, s1)
    | QueryResp.success none => (QueryOutcome.resolvedTrue, s1)
    | QueryResp.success (some (RespData.withId id)) =>
        (QueryOutcome.resolvedTrue, { s1 with _lastInsertId := some id })
    | QueryResp.success (some (RespData.rows rs)) =>
        (QueryOutcome.resolvedCursor ⟨rs⟩, s1)
  | (ConnResult.rejected _, s1) => (QueryOutcome.unsettled, s1)

/-- Word character of the regular expression class `\w`. -/
def isWordChar (c : Char) : Bool :=
  c.isAlphanum || c = '_'

/-- Character of the class `[\d,]`. -/
def isDigitComma (c : Char) : Bool :=
  c.isDigit || c = ','

/-- The optional group `(?:\(([\d,]+)\))?` of the vendor-type pattern,
attempted at the position right after the base name: an opening paren,
one or more digit/comma characters (the capture), then a closing
paren. -/
def tryParenGroup : List Char → Option (List Char)
  | [] => none
  | c :: rest =>
    if c = '(' then
      let digits := rest.takeWhile isDigitComma
      if digits.isEmpty then none
      else
        match rest.dropWhile isDigitComma with
        | ')' :: _ => some digits
        | _ => none
    else none

/-- First match of `(\w+)(?:\(([\d,]+)\))?` in a character list, as
performed by `column.Type.match(...)`: scan to the first word
character, take the maximal word-character run as the first capture,
then attempt the optional parenthesized group.  `none` models a failed
match (`matches` is null). -/
def scanMatch : List Char → Option (List Char × Option (List Char))
  | [] => none
  | c :: rest =>
    if isWordChar c then
      some (c :: rest.takeWhile isWordChar, tryParenGroup (rest.dropWhile isWordChar))
    else scanMatch rest

/-- `Number.parseInt` restricted to the digit/comma strings produced by
the capture: parses the leading run of decimal digits; `none` models
NaN (empty digit run). -/
def parseIntJs (cs : List Char) : Option Nat :=
  let ds := cs.takeWhile Char.isDigit
  if ds.isEmpty then none
  else some (ds.foldl (fun n c => n * 10 + (c.toNat - 48)) 0)

/-- `String.prototype.split(',')` on the capture, as a structural
function on character lists: `"10,2"` splits to `["10", "2"]`. -/
def splitOnComma : List Char → List (List Char)
  | [] => [[]]
  | c :: rest =>
    if c = ',' then [] :: splitOnComma rest
    else
      match splitOnComma rest with
      | [] => [[c]]
      | p :: ps => (c :: p) :: ps

/-- Generic field produced by `_field` (and `_column` of the second
copy): `type` is the resolved logical type, `use` the vendor base name,
`length`/`precision` the parsed parenthesized integers (`none` models
both an absent value and NaN). -/
structure Field where
  type : String
  use : String
  length : Option Nat
  precision : Option Nat
deriving DecidableEq, Repr

/-- The lexical part of `_field(column)`: match the vendor-type
pattern; `use` and the initial `type` are the base-name capture; when
the parenthesized capture is present, split it on commas, `length` is
`parseInt` of the first piece and `precision` is `parseInt` of the
second when that piece is present and non-empty.  `none` models the
TypeError raised when the pattern does not match at all. -/
def parseVendorRaw (typeText : String) : Option Field :=
  match scanMatch typeText.data with
  | none => none
  | some (base, parenGroup) =>
    let f0 : Field :=
      { type := String.mk base, use := String.mk base, length := none, precision := none }
    match parenGroup with
    | none => some f0
    | some cap =>
      let parts := splitOnComma cap
      let len := parseIntJs (parts.headD [])
      let prec :=
        match parts with
        | _ :: p :: _ => if p.isEmpty then none else parseIntJs p
        | _ => none
      some { f0 with length := len, precision := prec }

/-- `_field(column)` (identical to `_column(real)` of the second copy):
the lexical parse above, after which `type` is resolved through the
dialect's mapping table `mapped` (an external capability, passed as a
function). -/
def _field (mapped : Field → String) (typeText : String) : Option Field :=
  (parseVendorRaw typeText).map fun f1 => { f1 with type := mapped f1 }

/-- The default-normalization switch inside `fields()` of the first
copy: for a resolved boolean type, `dflt = dflt === '1'` (strict
equality coerced to a boolean); for a resolved datetime type, the
auto-now sentinel text normalizes to null and anything else passes
through; all other types pass the raw default through. -/
def normalizeDefault1 (ty : String) (d : JsVal) : JsVal :=
  if ty = "boolean" then JsVal.bool (decide (d = JsVal.str "1"))
  else if ty = "datetime" then
    if d = JsVal.str "CURRENT_TIMESTAMP" then JsVal.null else d
  else d

/-- The default-normalization switch inside `fields()` of the second
copy: for a resolved boolean type, `'1'` becomes true and `'0'` becomes
false, anything else passes through; the datetime and fall-through
cases are as in the first copy. -/
def normalizeDefault2 (ty : String) (d : JsVal) : JsVal :=
  if ty = "boolean" then
    if d = JsVal.str "1" then JsVal.bool true
    else if d = JsVal.str "0" then JsVal.bool false
    else d
  else if ty = "datetime" then
    if d = JsVal.str "CURRENT_TIMESTAMP" then JsVal.null else d
  else d

/-- A column row as reported by the `DESCRIBE` query: field name,
vendor type text, nullability flag text and raw default value. -/
structure Column where
  fieldName : String
  typeText : String
  nullFlag : String
  rawDefault : JsVal
deriving DecidableEq, Repr

/-- Normalized descriptor built for one column by the loop body of
`fields()`: nullability from the reported flag, normalized default,
and the generic field produced by `_field`. -/
structure FieldDescriptor where
  type : String
  use : String
  length : Option Nat
  precision : Option Nat
  nullable : Bool
  dflt : JsVal
deriving DecidableEq, Repr

/-- Loop body of `fields()` of the first copy for one column: parse the
vendor type, normalize the default via the first copy's switch, and
merge with the nullability flag (`column.Null === 'YES'`). -/
def fieldEntry (mapped : Field → String) (col : Column) : Option (String × FieldDescriptor) :=
  (_field mapped col.typeText).map fun f =>
    (col.fieldName,
      { type := f.type
        use := f.use
        length := f.length
        precision := f.precision
        nullable := col.nullFlag = "YES"
        dflt := normalizeDefault1 f.type col.rawDefault })

/-- Loop body of `fields()` of the second copy: identical except for the
boolean default normalization. -/
def fieldEntry2 (mapped : Field → String) (col : Column) : Option (String × FieldDescriptor) :=
  (_field mapped col.typeText).map fun f =>
    (col.fieldName,
      { type := f.type
        use := f.use
        length := f.length
        precision := f.precision
        nullable := col.nullFlag = "YES"
        dflt := normalizeDefault2 f.type col.rawDefault })

/-- `fields(name)` over the rows returned by the `DESCRIBE` query: the
descriptor list in reported column order (first copy). -/
def fields (mapped : Field → String) (columns : List Column) :
    Option (List (String × FieldDescriptor)) :=
  columns.mapM (fieldEntry mapped)

/-- Conversion direction of the Type Coercion Engine: toStorage is the
adapter's `'datasource'` mode and fromStorage its `'cast'` mode. -/
inductive Direction where
  | toStorage : Direction
  | fromStorage : Direction
deriving DecidableEq, Repr

/-- Plain association-list lookup used for the conversion tables. -/
def assocFind (ty : String) : List (String × (JsVal → JsVal)) → Option (JsVal → JsVal)
  | [] => none
  | (k, f) :: rest => if k = ty then some f else assocFind ty rest

/-- Stringification used by the generic toStorage fallback. -/
def jsStringify : JsVal → String
  | JsVal.null => "null"
  | JsVal.bool true => "true"
  | JsVal.bool false => "false"
  | JsVal.str s => s
  | JsVal.num n => toString n

/-- Modelled from the spec: the toStorage half of the ConversionTable.
The `convert` implementation lives in the chaos-database base class,
outside src/; the table below realizes the documented per-type
behavior for the types the adapter exercises (integer family unquoted,
boolean as the literals TRUE/FALSE, string quoted). -/
def toStorageHandlers : List (String × (JsVal → JsVal)) :=
  [ ("integer", fun v => JsVal.str (jsStringify v))
  , ("serial", fun v => JsVal.str (jsStringify v))
  , ("id", fun v => JsVal.str (jsStringify v))
  , ("boolean", fun v =>
      match v with
      | JsVal.bool true => JsVal.str "TRUE"
      | _ => JsVal.str "FALSE")
  , ("string", fun v => JsVal.str ("'" ++ jsStringify v ++ "'")) ]

/-- Modelled from the spec: the fromStorage half of the ConversionTable
(boolean 1/0 to true/false, integer family parsed to numeric). -/
def fromStorageHandlers : List (String × (JsVal → JsVal)) :=
  [ ("integer", fun v =>
      match v with
      | JsVal.str s =>
        match parseIntJs s.data with
        | some n => JsVal.num (Int.ofNat n)
        | none => v
      | _ => v)
  , ("boolean", fun v =>
      match v with
      | JsVal.num 1 => JsVal.bool true
      | JsVal.num 0 => JsVal.bool false
      | JsVal.str "1" => JsVal.bool true
      | JsVal.str "0" => JsVal.bool false
      | _ => v) ]

/-- Modelled from the spec: `convert(direction, logicalType, value)` of
the Type Coercion Engine (implemented in the chaos-database base class,
outside src/).  A null value converted toStorage always yields the
storage NULL literal, independent of the logical type; otherwise the
converter for the logical type is looked up in the direction's table,
falling back to the generic converter (quoted stringify for toStorage,
identity for fromStorage) when the type is absent. -/
def convert (dir : Direction) (ty : String) (v : JsVal) : JsVal :=
  if dir = Direction.toStorage && decide (v = JsVal.null) then JsVal.str "NULL"
  else
    match dir with
    | Direction.toStorage =>
      match assocFind ty toStorageHandlers with
      | some f => f v
      | none => JsVal.str ("'" ++ jsStringify v ++ "'")
    | Direction.fromStorage =>
      match assocFind ty fromStorageHandlers with
      | some f => f v
      | none => v

/-- A concrete connected adapter state: handle 5 cached, one transport
connection performed, handle supply at 6. -/
def wIdem : DB :=
  { _client := some 5
    _connected := true
    _lastInsertId := none
    database := some "chaos_test"
    nextHandle := 6
    transportConnects := 1 }

/-- The state of a fresh adapter right after a failed transport
connection attempt. -/
def sFailed : DB :=
  (connect (ConnectOutcome.failure "ECONNREFUSED" "details") (mkMySql (some "chaos_test") none)).2

/-- A dialect mapping table fragment: MySQL reports booleans as
tinyint, which the dialect maps to the boolean logical type. -/
def boolMapped : Field → String :=
  fun f => if f.use = "tinyint" then "boolean" else f.use

/-! ## Helper lemmas -/

/-- Elements of `dropWhile p l` are elements of `l`. -/
theorem mem_of_mem_dropWhileChar (p : Char → Bool) :
    ∀ (l : List Char) (c : Char), c ∈ l.dropWhile p → c ∈ l
  | [], c, h => by simp at h
  | a :: rest, c, h => by
    by_cases hp : p a
    · simp only [List.dropWhile_cons, hp, if_true] at h
      exact List.mem_cons_of_mem a (mem_of_mem_dropWhileChar p rest c h)
    · simpa [List.dropWhile_cons, hp] using h

/-- When the text holds no opening paren, the optional group of the
vendor-type pattern never matches. -/
theorem tryParenGroup_of_no_paren (cs : List Char) (h : ∀ c ∈ cs, c ≠ '(') :
    tryParenGroup cs = none := by
  cases cs with
  | nil => rfl
  | cons c rest =>
    have hc : c ≠ '(' := h c (List.mem_cons_self c rest)
    simp [tryParenGroup, hc]

/-- When the text holds no opening paren, any successful scan carries
no parenthesized capture. -/
theorem scanMatch_of_no_paren :
    ∀ (cs : List Char), (∀ c ∈ cs, c ≠ '(') →
      ∀ b g, scanMatch cs = some (b, g) → g = none
  | [], _, b, g, h => by simp [scanMatch] at h
  | c :: rest, hno, b, g, h => by
    by_cases hw : isWordChar c
    · simp only [scanMatch, hw, if_true, Option.some.injEq, Prod.mk.injEq] at h
      rw [← h.2]
      exact tryParenGroup_of_no_paren _ fun x hx =>
        hno x (List.mem_cons_of_mem c (mem_of_mem_dropWhileChar isWordChar rest x hx))
    · simp only [scanMatch, hw, if_false] at h
      exact scanMatch_of_no_paren rest
        (fun x hx => hno x (List.mem_cons_of_mem c hx)) b g h

/-- When the vendor type text holds no opening paren, the lexical parse
leaves length and precision absent. -/
theorem parseVendorRaw_of_no_paren (t : String) (f1 : Field)
    (hnp : ∀ c ∈ t.data, c ≠ '(') (h : parseVendorRaw t = some f1) :
    f1.length = none ∧ f1.precision = none := by
  cases hscan : scanMatch t.data with
  | none => simp [parseVendorRaw, hscan] at h
  | some bg =>
    obtain ⟨b, g⟩ := bg
    have hg : g = none := scanMatch_of_no_paren t.data hnp b g hscan
    subst hg
    simp only [parseVendorRaw, hscan, Option.some.injEq] at h
    rw [← h]
    exact ⟨rfl, rfl⟩

/-- `connect` never touches the `_lastInsertId` slot. -/
theorem connect_preserves_lastInsertId (env : ConnectOutcome) (s : DB) :
    ((connect env s).2)._lastInsertId = s._lastInsertId := by
  unfold connect
  cases hc : s._client with
  | some h => rfl
  | none =>
    cases hd : s.database with
    | none => rfl
    | some db => cases env <;> rfl

/-! ## Claim theorems -/

/-- C1: whenever a client handle is cached on the instance, `connect()`
resolves immediately with that same handle and changes nothing (in
particular `transportConnects` is unchanged: no new transport work);
after `disconnect()` clears the handle, the next `connect()` opens and
resolves with a new handle, distinct from the old one.  The hypothesis
`h < s.nextHandle` is the handle-supply discipline: every handle the
adapter ever created lies below the supply counter. -/
theorem connect_idempotent (env : ConnectOutcome) (s : DB) (h : Nat)
    (hc : s._client = some h) (hf : h < s.nextHandle) :
    connect env s = (ConnResult.resolved h, s)
    ∧ (disconnect s).2._client = none
    ∧ (s.database.isSome →
        (connect ConnectOutcome.success (disconnect s).2).1 = ConnResult.resolved s.nextHandle
        ∧ s.nextHandle ≠ h) := by
  refine ⟨?_, ?_, ?_⟩
  · simp [connect, hc]
  · simp [disconnect, hc]
  · intro hdb
    obtain ⟨db, hdb⟩ := Option.isSome_iff_exists.mp hdb
    refine ⟨?_, ?_⟩
    · simp [disconnect, hc, connect, hdb]
    · omega

/-- Witness for C1 at the concrete connected state `wIdem`. -/
theorem connect_idempotent_witness :
    connect ConnectOutcome.success wIdem = (ConnResult.resolved 5, wIdem)
    ∧ (disconnect wIdem).2._client = none
    ∧ (connect ConnectOutcome.success (disconnect wIdem).2).1 = ConnResult.resolved 6 :=
  ⟨(connect_idempotent ConnectOutcome.success wIdem 5 rfl (by decide)).1,
   (connect_idempotent ConnectOutcome.success wIdem 5 rfl (by decide)).2.1,
   ((connect_idempotent ConnectOutcome.success wIdem 5 rfl (by decide)).2.2 (by decide)).1⟩

/-- C10: `disconnect()` modifies only the cached client handle and the
connected flag; the recorded last-insert identifier (with the rest of
the instance state) is unchanged, so `lastInsertId()` returns the same
value after a `disconnect()` as before it. -/
theorem disconnect_preserves_lastInsertId (s : DB) (id : Int)
    (h : s._lastInsertId = some id) :
    lastInsertId (disconnect s).2 = some id
    ∧ (disconnect s).2._lastInsertId = s._lastInsertId
    ∧ (disconnect s).2.database = s.database
    ∧ (disconnect s).2.nextHandle = s.nextHandle
    ∧ (disconnect s).2.transportConnects = s.transportConnects
    ∧ (disconnect s).1 = true := by
  cases hc : s._client <;>
    simp [disconnect, lastInsertId, hc, h]

/-- Witness for C10 at a concrete state with a recorded insert id. -/
theorem disconnect_preserves_lastInsertId_witness :
    lastInsertId (disconnect { wIdem with _lastInsertId := some 9 }).2 = some 9 :=
  (disconnect_preserves_lastInsertId { wIdem with _lastInsertId := some 9 } 9 rfl).1

/-- C4 counterexample: after a failed transport connection attempt on a
fresh adapter, the created handle stays cached on the instance
(`_client = some 0`, not cleared), and a later `connect()` resolves
with that dead handle without touching the transport (the state,
including `transportConnects`, is unchanged) even under an environment
in which the transport would fail again.  This refutes the claim that
no handle stays cached and that a later `connect()` retries the
transport. -/
theorem connect_failure_keeps_handle_cex :
    sFailed._client = some 0
    ∧ connect (ConnectOutcome.failure "EAGAIN" "later") sFailed
        = (ConnResult.resolved 0, sFailed) := by
  constructor
  · rfl
  · rfl

/-- C4 amended: when the transport-level connection attempt fails,
`connect()` rejects with a message embedding the native error code and
diagnostic detail, and the `_connected` flag is unchanged (false for a
fresh adapter); however the handle created for the attempt remains
cached on the instance, so a later `connect()` resolves immediately
with that dead handle instead of retrying the transport. -/
theorem connect_failure_amended (s : DB) (db code stack : String)
    (hcl : s._client = none) (hdb : s.database = some db) :
    connect (ConnectOutcome.failure code stack) s
      = (ConnResult.rejected ("Unable to connect to host , error " ++ code ++ " " ++ stack),
         { s with _client := some s.nextHandle
                  nextHandle := s.nextHandle + 1
                  transportConnects := s.transportConnects + 1 })
    ∧ ((connect (ConnectOutcome.failure code stack) s).2)._connected = s._connected
    ∧ (∀ env2, connect env2 ((connect (ConnectOutcome.failure code stack) s).2)
         = (ConnResult.resolved s.nextHandle,
            (connect (ConnectOutcome.failure code stack) s).2)) := by
  have hstep : connect (ConnectOutcome.failure code stack) s
      = (ConnResult.rejected ("Unable to connect to host , error " ++ code ++ " " ++ stack),
         { s with _client := some s.nextHandle
                  nextHandle := s.nextHandle + 1
                  transportConnects := s.transportConnects + 1 }) := by
    simp [connect, hcl, hdb]
  refine ⟨hstep, ?_, ?_⟩
  · rw [hstep]
  · intro env2
    rw [hstep]
    simp [connect]

/-- Witness for C4 (amended) on a fresh adapter with a configured
database name. -/
theorem connect_failure_amended_witness :
    connect (ConnectOutcome.failure "ECONNREFUSED" "details") (mkMySql (some "chaos_test") none)
      = (ConnResult.rejected "Unable to connect to host , error ECONNREFUSED details",
         { mkMySql (some "chaos_test") none with
             _client := some 0, nextHandle := 1, transportConnects := 1 }) :=
  (connect_failure_amended (mkMySql (some "chaos_test") none)
    "chaos_test" "ECONNREFUSED" "details" rfl rfl).1

/-- C9 counterexample: an adapter constructed with an injected client
handle reports `connected() = false` right after construction (the
`_connected` flag starts false), and still false even after a
`connect()` call, because `connect()` short-circuits on the cached
client without ever setting the flag.  This refutes the claim that the
state starts Connected when a handle is injected. -/
theorem connected_injected_client_cex :
    connected (mkMySql (some "chaos_test") (some 7)) = false
    ∧ connected (connect ConnectOutcome.success (mkMySql (some "chaos_test") (some 7))).2 = false := by
  constructor
  · rfl
  · rfl

/-- C9 amended: `connected()` of the first copy reads the `_connected`
flag, which starts false even when a client handle is injected at
construction (and stays false, since `connect()` short-circuits on the
cached handle); for an adapter without an injected handle it returns
false until a transport `connect()` succeeds, and stays unchanged when
the connection attempt fails.  The second copy's `connected()`, which
tests the cached handle, behaves as the original claim states. -/
theorem connected_amended (db : String) (cl : Nat) (s : DB) (code stack : String)
    (hcl : s._client = none) (hdb : s.database.isSome) :
    connected (mkMySql (some db) (some cl)) = false
    ∧ connected (mkMySql (some db) none) = false
    ∧ connected (connect ConnectOutcome.success s).2 = true
    ∧ connected (connect (ConnectOutcome.failure code stack) s).2 = s._connected
    ∧ connected2 (mkMySql (some db) (some cl)) = true
    ∧ connected2 (mkMySql (some db) none) = false := by
  obtain ⟨d, hd⟩ := Option.isSome_iff_exists.mp hdb
  refine ⟨rfl, rfl, ?_, ?_, rfl, rfl⟩
  · simp [connect, connected, hcl, hd]
  · simp [connect, connected, hcl, hd]

/-- Witness for C9 (amended) on a fresh adapter. -/
theorem connected_amended_witness :
    connected (mkMySql (some "chaos_test") (some 7)) = false
    ∧ connected (connect ConnectOutcome.success (mkMySql (some "chaos_test") none)).2 = true :=
  ⟨(connected_amended "chaos_test" 7 (mkMySql (some "chaos_test") none)
      "ECONNREFUSED" "details" rfl rfl).1,
   (connected_amended "chaos_test" 7 (mkMySql (some "chaos_test") none)
      "ECONNREFUSED" "details" rfl rfl).2.2.1⟩

/-- C3 counterexample: when the underlying `connect()` step fails (here
a transport failure on a fresh adapter), the promise returned by
`query()` never settles: the connect rejection has no handler on the
`.then`, so it is swallowed instead of rejecting the query's promise.
This refutes the claim that every error inside `query()` surfaces as a
rejection. -/
theorem query_swallows_connect_failure_cex :
    (query (ConnectOutcome.failure "ECONNREFUSED" "details") (QueryResp.success none)
        (mkMySql (some "chaos_test") none)).1 = QueryOutcome.unsettled := by
  rfl

/-- C3 amended: a statement-level transport error rejects the query's
promise with the native error preserved unmodified; but when the
underlying `connect()` step rejects, the query's promise remains
unsettled forever (the connect rejection is swallowed). -/
theorem query_error_propagation_amended (env : ConnectOutcome) (s : DB) (e : String) :
    ((∃ h s1, connect env s = (ConnResult.resolved h, s1)) →
       (query env (QueryResp.error e) s).1 = QueryOutcome.rejected e)
    ∧ ((∃ msg s1, connect env s = (ConnResult.rejected msg, s1)) →
       (query env (QueryResp.error e) s).1 = QueryOutcome.unsettled) := by
  constructor
  · rintro ⟨h, s1, hc⟩
    simp [query, hc]
  · rintro ⟨msg, s1, hc⟩
    simp [query, hc]

/-- Witness for C3 (amended): on a connected adapter, a transport error
rejects the query's promise with the native message preserved. -/
theorem query_error_propagation_witness :
    (query ConnectOutcome.success
        (QueryResp.error "You have an error in your SQL syntax")
        (mkMySql (some "chaos_test") (some 3))).1
      = QueryOutcome.rejected "You have an error in your SQL syntax" :=
  (query_error_propagation_amended ConnectOutcome.success
      (mkMySql (some "chaos_test") (some 3))
      "You have an error in your SQL syntax").1
    ⟨3, mkMySql (some "chaos_test") (some 3), rfl⟩

/-- C2: on every successful `query()` call (one whose `connect()` step
resolves), an `insertId`-carrying response records the identifier —
overwriting whatever `_lastInsertId` held before, since `s` is
arbitrary — so that `lastInsertId()` returns it, and the query resolves
with `true`; a row-data response resolves with a cursor wrapping the
rows; an empty response resolves with `true`; and `lastInsertId()` is
undefined (`none`) on a freshly constructed adapter. -/
theorem query_classification (env : ConnectOutcome) (s : DB) (h : Nat) (s1 : DB)
    (hc : connect env s = (ConnResult.resolved h, s1)) :
    (∀ id, query env (QueryResp.success (some (RespData.withId id))) s
        = (QueryOutcome.resolvedTrue, { s1 with _lastInsertId := some id })
      ∧ lastInsertId { s1 with _lastInsertId := some id } = some id)
    ∧ (∀ rs, query env (QueryResp.success (some (RespData.rows rs))) s
        = (QueryOutcome.resolvedCursor ⟨rs⟩, s1))
    ∧ query env (QueryResp.success none) s = (QueryOutcome.resolvedTrue, s1)
    ∧ (∀ db cl, lastInsertId (mkMySql db cl) = none) := by
  refine ⟨fun id => ⟨?_, rfl⟩, fun rs => ?_, ?_, fun db cl => rfl⟩ <;>
    simp [query, hc]

/-- Witness for C2 on a connected adapter: a mutation recording insert
id 42, resolving with `true`. -/
theorem query_classification_witness :
    query ConnectOutcome.success (QueryResp.success (some (RespData.withId 42)))
        (mkMySql (some "chaos_test") (some 3))
      = (QueryOutcome.resolvedTrue,
         { mkMySql (some "chaos_test") (some 3) with _lastInsertId := some 42 }) :=
  ((query_classification ConnectOutcome.success (mkMySql (some "chaos_test") (some 3)) 3
      (mkMySql (some "chaos_test") (some 3)) rfl).1 42).1

/-- C5 counterexample: in the first copy's introspection, a boolean
column (tinyint mapped to boolean) whose raw default is null yields the
descriptor default `false`, not the raw null passed through: the source
computes `dflt = dflt === '1'`, so every non-`'1'` raw default
collapses to false.  This refutes the pass-through clause of the
claim. -/
theorem boolean_default_cex :
    fieldEntry boolMapped
        { fieldName := "active", typeText := "tinyint(1)", nullFlag := "YES",
          rawDefault := JsVal.null }
      = some ("active",
          { type := "boolean", use := "tinyint", length := some 1, precision := none,
            nullable := true, dflt := JsVal.bool false })
    ∧ JsVal.bool false ≠ JsVal.null := by
  constructor
  · rfl
  · decide

/-- C5 amended: for a boolean logical type, a raw default of `'1'`
normalizes to true and `'0'` to false in both copies; but in the first
(current) copy every other raw default collapses to false, while only
the second copy passes other raw defaults through unchanged. -/
theorem boolean_default_amended (d : JsVal) :
    normalizeDefault1 "boolean" (JsVal.str "1") = JsVal.bool true
    ∧ normalizeDefault1 "boolean" (JsVal.str "0") = JsVal.bool false
    ∧ (d ≠ JsVal.str "1" → normalizeDefault1 "boolean" d = JsVal.bool false)
    ∧ normalizeDefault2 "boolean" (JsVal.str "1") = JsVal.bool true
    ∧ normalizeDefault2 "boolean" (JsVal.str "0") = JsVal.bool false
    ∧ (d ≠ JsVal.str "1" → d ≠ JsVal.str "0" → normalizeDefault2 "boolean" d = d) := by
  refine ⟨by decide, by decide, ?_, by decide, by decide, ?_⟩
  · intro hd
    simp [normalizeDefault1, hd]
  · intro h1 h2
    simp [normalizeDefault2, h1, h2]

/-- Witness for C5 (amended) at the raw default null. -/
theorem boolean_default_amended_witness :
    normalizeDefault1 "boolean" JsVal.null = JsVal.bool false
    ∧ normalizeDefault2 "boolean" JsVal.null = JsVal.null :=
  ⟨(boolean_default_amended JsVal.null).2.2.1 (by decide),
   (boolean_default_amended JsVal.null).2.2.2.2.2 (by decide) (by decide)⟩

/-- C7: in field introspection, for a column whose resolved logical
type is datetime, a raw default equal to the auto-now sentinel text
`'CURRENT_TIMESTAMP'` normalizes to null, and any other raw default is
passed through unchanged (stated on the loop body of `fields()`; the
second copy's switch is syntactically identical on this case). -/
theorem datetime_default_normalization (mapped : Field → String) (col : Column) (f : Field)
    (hf : _field mapped col.typeText = some f) (ht : f.type = "datetime") :
    (col.rawDefault = JsVal.str "CURRENT_TIMESTAMP" →
      fieldEntry mapped col = some (col.fieldName,
        { type := f.type, use := f.use, length := f.length, precision := f.precision,
          nullable := col.nullFlag = "YES", dflt := JsVal.null }))
    ∧ (col.rawDefault ≠ JsVal.str "CURRENT_TIMESTAMP" →
      fieldEntry mapped col = some (col.fieldName,
        { type := f.type, use := f.use, length := f.length, precision := f.precision,
          nullable := col.nullFlag = "YES", dflt := col.rawDefault }))
    ∧ normalizeDefault2 "datetime" (JsVal.str "CURRENT_TIMESTAMP") = JsVal.null := by
  refine ⟨?_, ?_, by decide⟩
  · intro hd
    simp [fieldEntry, hf, normalizeDefault1, ht, hd]
  · intro hd
    simp [fieldEntry, hf, normalizeDefault1, ht, hd]

/-- Witness for C7 on a timestamp column whose raw default is the
auto-now sentinel. -/
theorem datetime_default_witness :
    fieldEntry (fun _ : Field => "datetime")
        { fieldName := "created", typeText := "timestamp", nullFlag := "NO",
          rawDefault := JsVal.str "CURRENT_TIMESTAMP" }
      = some ("created",
          { type := "datetime", use := "timestamp", length := none, precision := none,
            nullable := false, dflt := JsVal.null }) :=
  (datetime_default_normalization (fun _ : Field => "datetime")
      { fieldName := "created", typeText := "timestamp", nullFlag := "NO",
        rawDefault := JsVal.str "CURRENT_TIMESTAMP" }
      { type := "datetime", use := "timestamp", length := none, precision := none }
      rfl rfl).1 rfl

/-- C8: NULL conversion toStorage is type-independent: for every
logical type, including types absent from the `toStorageHandlers`
table, converting a null value toStorage yields the storage literal
`'NULL'` (and the boolean handler, when reached with non-null input,
yields the TRUE/FALSE literals). -/
theorem convert_null_toStorage (ty : String) :
    convert Direction.toStorage ty JsVal.null = JsVal.str "NULL"
    ∧ convert Direction.toStorage "boolean" (JsVal.bool true) = JsVal.str "TRUE"
    ∧ convert Direction.toStorage "boolean" (JsVal.bool false) = JsVal.str "FALSE"
    ∧ convert Direction.toStorage "_undefined_" (JsVal.num 123) = JsVal.str "'123'" := by
  refine ⟨?_, rfl, rfl, rfl⟩
  simp [convert]

/-- Witness for C8 at a logical type absent from the table. -/
theorem convert_null_toStorage_witness :
    convert Direction.toStorage "_undefined_" JsVal.null = JsVal.str "NULL" :=
  (convert_null_toStorage "_undefined_").1

/-- C6: the vendor-type parser matches a base name optionally followed
by a parenthesized length/precision pair: on `"decimal(10,2)"` it
produces use type `'decimal'`, integer length 10 and integer precision
2, with the logical type resolved through the dialect's mapping table
`mapped` (universally quantified here, hence not hardcoded); and
whenever the input text holds no opening paren, the parsed length and
precision are both absent. -/
theorem parseVendorType_spec (mapped : Field → String) (t : String) (f : Field)
    (hnp : ∀ c ∈ t.data, c ≠ '(') (hm : _field mapped t = some f) :
    _field mapped "decimal(10,2)"
      = some { type := mapped { type := "decimal", use := "decimal",
                                length := some 10, precision := some 2 }
               use := "decimal", length := some 10, precision := some 2 }
    ∧ f.length = none ∧ f.precision = none := by
  have hraw : parseVendorRaw "decimal(10,2)"
      = some { type := "decimal", use := "decimal", length := some 10, precision := some 2 } :=
    rfl
  refine ⟨by simp [_field, hraw], ?_⟩
  cases hraw2 : parseVendorRaw t with
  | none => simp [_field, hraw2] at hm
  | some f1 =>
    have h1 := parseVendorRaw_of_no_paren t f1 hnp hraw2
    simp only [_field, hraw2, Option.map_some', Option.some.injEq] at hm
    rw [← hm]
    exact h1

/-- Witness for C6, discharging the no-paren hypothesis at the vendor
type text `"timestamp"`. -/
theorem parseVendorType_witness :
    _field (fun _ : Field => "datetime") "decimal(10,2)"
      = some { type := "datetime", use := "decimal", length := some 10, precision := some 2 }
    ∧ ({ type := "datetime", use := "timestamp", length := none,
         precision := none } : Field).length = none :=
  have h := parseVendorType_spec (fun _ : Field => "datetime") "timestamp"
      { type := "datetime", use := "timestamp", length := none, precision := none }
      (by decide) rfl
  ⟨h.1, h.2.1⟩

end MySql
